import Mathlib

/-!
Shallow embedding of the Virtual C-Suite Boardroom service (src/main.py) and
proofs of the specification claims about it.

Modelling conventions:
* Python `dict` (insertion-ordered, unique keys) is modelled as an association
  list `List (String × α)`; assignment updates the first (only) matching entry
  in place, otherwise appends at the end — exactly Python's insertion-order
  semantics.
* Python `str` is modelled as Lean `String` (a sequence of code points, as in
  Python); character-level slicing `s[:n]` is modelled on `s.data`.
* The process-local clock (`datetime.now()`) is an external input: functions
  that read it take the current timestamp / date string as an argument.
* Elapsed-time samples (Python floats) are modelled as rationals.
* The generation collaborator `client.chat.completions.create` is an external
  oracle `GenOracle`: given the executive id, the user message and the derived
  context it either returns the response content or fails (any exception,
  timeout or malformed response is a single failure signal).  The collaborator
  owns prompt formatting, model choice and sampling parameters (the
  `system_prompt` built at src/main.py lines 282-293 is a function of the
  executive record and the context, so the oracle boundary is
  information-equivalent).
-/

/-- Python dict assignment `d[k] = v` on an association list: update the first
matching key in place, else append `(k, v)` at the end. -/
def dictInsert {α : Type} : List (String × α) → String → α → List (String × α)
  | [], k, v => [(k, v)]
  | (k0, v0) :: rest, k, v =>
    if k0 = k then (k0, v) :: rest else (k0, v0) :: dictInsert rest k v

/-- Python dict lookup `d[k]` / `k in d` on an association list. -/
def dictGet {α : Type} : List (String × α) → String → Option α
  | [], _ => none
  | (k0, v0) :: rest, k => if k0 = k then some v0 else dictGet rest k

/-- Lookup with default 0 for counter dicts. -/
def dictGetD (d : List (String × Nat)) (k : String) : Nat :=
  (dictGet d k).getD 0

/-- The key sequence of an association list. -/
def dictKeys {α : Type} (d : List (String × α)) : List String :=
  d.map Prod.fst

/-- Python `if k in d: d[k] += 1 else: d[k] = 1` (src/main.py lines 225-228 and
231-234). -/
def dictIncr : List (String × Nat) → String → List (String × Nat)
  | [], k => [(k, 1)]
  | (k0, v0) :: rest, k =>
    if k0 = k then (k0, v0 + 1) :: rest else (k0, v0) :: dictIncr rest k

/-- Python slice `l[s:]` (start index possibly negative, clamped as Python
clamps it). -/
def pyTail {α : Type} (l : List α) (s : Int) : List α :=
  if s < 0 then l.drop ((l.length : Int) + s).toNat else l.drop s.toNat

/-- Python `str.strip()` (default mode): remove leading and trailing
whitespace. -/
def pyStrip (s : String) : String :=
  String.mk
    (((s.data.dropWhile Char.isWhitespace).reverse.dropWhile
        Char.isWhitespace).reverse)

/-- An executive profile (src/main.py lines 81-217, values of `EXECUTIVES`). -/
structure Executive where
  name : String
  title : String
  department : String
  personality : String
  expertise : List String
deriving DecidableEq

/-- The `EXECUTIVES` registry (src/main.py lines 81-217), in source order. -/
def EXECUTIVES : List (String × Executive) := [
  ("garrett",
   { name := "Garrett", title := "Chief Executive Officer (CEO)",
     department := "Executive",
     personality := "Visionary leader focused on strategic direction, market positioning, and long-term growth. Thinks big picture and makes decisive calls.",
     expertise := ["Strategic Vision", "Leadership", "Market Positioning", "Stakeholder Relations", "Corporate Strategy"] }),
  ("melon",
   { name := "Melon", title := "Chief Operating Officer (COO)",
     department := "Executive",
     personality := "Operations-focused executive who optimizes processes, improves efficiency, and ensures smooth day-to-day operations.",
     expertise := ["Operations Management", "Process Optimization", "Efficiency", "Team Coordination", "Operational Strategy"] }),
  ("steve",
   { name := "Steve", title := "Chief Technology Officer (CTO)",
     department := "Executive",
     personality := "Technology strategist who drives innovation, scalable solutions, and digital transformation initiatives.",
     expertise := ["Technology Strategy", "Innovation", "Scalable Architecture", "Digital Transformation", "Tech Leadership"] }),
  ("grant",
   { name := "Grant", title := "Chief Strategy Officer (CSO)",
     department := "Executive",
     personality := "Strategic analyst who provides competitive intelligence, market analysis, and strategic planning insights.",
     expertise := ["Strategic Analysis", "Competitive Intelligence", "Market Research", "Business Planning", "Growth Strategy"] }),
  ("xander",
   { name := "Xander", title := "Chief Financial Officer (CFO)",
     department := "Finance",
     personality := "Financial strategist focused on ROI analysis, risk management, and sustainable financial growth.",
     expertise := ["Financial Strategy", "ROI Analysis", "Risk Management", "Financial Planning", "Investment Strategy"] }),
  ("sarah",
   { name := "Sarah", title := "Bookkeeper",
     department := "Finance",
     personality := "Detail-oriented financial professional ensuring accuracy in accounting, compliance, and financial records.",
     expertise := ["Accounting", "Compliance", "Financial Records", "Bookkeeping", "Financial Controls"] }),
  ("don",
   { name := "Don", title := "Investment Manager",
     department := "Finance",
     personality := "Portfolio management expert focused on investment strategy and maximizing returns while managing risk.",
     expertise := ["Portfolio Management", "Investment Strategy", "Asset Allocation", "Risk Assessment", "Market Analysis"] }),
  ("aleks",
   { name := "Aleks", title := "Chief Marketing Officer (CMO)",
     department := "Marketing",
     personality := "Marketing strategist who drives brand management, customer engagement, and market positioning.",
     expertise := ["Marketing Strategy", "Brand Management", "Customer Engagement", "Market Positioning", "Growth Marketing"] }),
  ("ashley",
   { name := "Ashley", title := "Creative Director",
     department := "Marketing",
     personality := "Creative visionary who develops visual identity, creative concepts, and brand aesthetics.",
     expertise := ["Visual Identity", "Creative Concepts", "Brand Aesthetics", "Design Strategy", "Creative Leadership"] }),
  ("gray",
   { name := "Gray", title := "Brand Strategist",
     department := "Marketing",
     personality := "Brand positioning expert who conducts market research and develops brand strategy.",
     expertise := ["Brand Positioning", "Market Research", "Brand Strategy", "Consumer Insights", "Brand Development"] }),
  ("yu",
   { name := "Yu", title := "Ad Strategist",
     department := "Marketing",
     personality := "Performance marketing specialist focused on campaign optimization and measurable results.",
     expertise := ["Performance Marketing", "Campaign Optimization", "Digital Advertising", "Analytics", "Conversion Optimization"] }),
  ("jimmy",
   { name := "Jimmy", title := "Content Strategist",
     department := "Marketing",
     personality := "Content marketing expert who develops storytelling strategies and content frameworks.",
     expertise := ["Content Marketing", "Storytelling", "Content Strategy", "Editorial Planning", "Content Distribution"] }),
  ("alejandra",
   { name := "Alejandra", title := "Graphic Designer",
     department := "Marketing",
     personality := "Visual design specialist who creates brand assets and maintains visual consistency.",
     expertise := ["Visual Design", "Brand Assets", "Graphic Design", "Visual Communication", "Design Systems"] }),
  ("kimberly",
   { name := "Kimberly", title := "HR Director",
     department := "Human Resources",
     personality := "People management expert focused on organizational development and team dynamics.",
     expertise := ["People Management", "Organizational Development", "Team Dynamics", "HR Strategy", "Talent Management"] }),
  ("lauren",
   { name := "Lauren", title := "Numerologist",
     department := "Human Resources",
     personality := "Analytics specialist who provides data insights, forecasting, and performance metrics.",
     expertise := ["Analytics", "Data Insights", "Forecasting", "Performance Metrics", "Statistical Analysis"] }),
  ("garyn",
   { name := "Garyn", title := "Chief Real Estate Officer (CREO)",
     department := "Real Estate",
     personality := "Real estate strategist focused on property management and real estate investment strategy.",
     expertise := ["Real Estate Strategy", "Property Management", "Real Estate Investment", "Market Analysis", "Portfolio Optimization"] }),
  ("jace",
   { name := "Jace", title := "Creative Finance Director",
     department := "Real Estate",
     personality := "Real estate financing expert who develops creative investment structures and financing solutions.",
     expertise := ["Real Estate Financing", "Investment Structures", "Creative Financing", "Capital Strategy", "Deal Structuring"] }),
  ("wise",
   { name := "Wise", title := "Acquisitions Director",
     department := "Real Estate",
     personality := "Property acquisition specialist focused on market analysis and investment opportunities.",
     expertise := ["Property Acquisition", "Market Analysis", "Investment Opportunities", "Due Diligence", "Deal Evaluation"] })
]

/-- `EXECUTIVES[id]` / `id in EXECUTIVES`. -/
def registryFind (executive_id : String) : Option Executive :=
  (dictGet EXECUTIVES executive_id)

/-- Request body of `POST /api/executive-response` (src/main.py lines 51-53). -/
structure ExecutiveRequest where
  message : String
  executives : List String

/-- One entry of `chat_history` (src/main.py lines 372-377).  Entries are only
ever created by `get_executive_responses`, with exactly these four keys (in
particular no `user` key, so `msg.get("user", "User")` is always `"User"`). -/
structure ChatEntry where
  timestamp : String
  message : String
  executives : List String
  responses : List (String × String)
deriving DecidableEq

/-- `analytics_data` (src/main.py lines 73-78). -/
structure AnalyticsState where
  total_conversations : Nat
  executive_usage : List (String × Nat)
  daily_stats : List (String × Nat)
  response_times : List ℚ
deriving DecidableEq

/-- The initial value of `analytics_data` (src/main.py lines 73-78). -/
def analytics_data_init : AnalyticsState :=
  { total_conversations := 0, executive_usage := [], daily_stats := [],
    response_times := [] }

/-- `track_analytics` (src/main.py lines 220-236).  `today` is the
process-local date string `datetime.now().strftime("%Y-%m-%d")`. -/
def track_analytics (s : AnalyticsState) (executive_list : List String)
    (response_time : ℚ) (today : String) : AnalyticsState :=
  { total_conversations := s.total_conversations + 1,
    executive_usage := executive_list.foldl dictIncr s.executive_usage,
    daily_stats := dictIncr s.daily_stats today,
    response_times := s.response_times ++ [response_time] }

/-- The generation collaborator: `client.chat.completions.create` plus the
extraction `response.choices[0].message.content` (src/main.py lines 295-305).
`.error` covers every failure mode — raised exception, timeout, or malformed
response object. -/
def GenOracle : Type := String → String → String → Except String String

/-- The fixed fallback returned by `get_executive_response` when the
collaborator call fails (src/main.py line 309). -/
def apology_unable : String :=
  "I apologize, but I\x27m currently unable to provide a response. Please try again shortly."

/-- The fallback used by the orchestrator loop for a result that is an
exception instance (src/main.py line 367). -/
def apology_unavailable : String :=
  "I apologize, but I\x27m currently unavailable. Please try again."

/-- The not-found string of `get_executive_response` (src/main.py line 278). -/
def executive_not_found (executive_id : String) : String :=
  "Executive " ++ executive_id ++ " not found."

/-- `get_executive_response` (src/main.py lines 274-309).  The whole body runs
inside `try`; the only fallible operation is the collaborator call, and
`except Exception` converts any failure into the fixed apology string, so the
function always returns a string. -/
def get_executive_response (gen : GenOracle)
    (executive_id message context : String) : String :=
  match registryFind executive_id with
  | none => executive_not_found executive_id
  | some _ =>
    match gen executive_id message context with
    | .error _ => apology_unable
    | .ok content => pyStrip content

/-- Context derivation, src/main.py lines 346-350: the last three entries of
`chat_history` (`chat_history[-3:]`), each rendered as
`f"{msg.get('user', 'User')}: {msg.get('message', '')}"` — which for entries
created by this service is `"User: " ++ message` — joined with `" | "`. -/
def get_context (chat_history : List ChatEntry) : String :=
  if chat_history.length > 0 then
    String.intercalate " | "
      ((pyTail chat_history (-3)).map (fun msg => "User: " ++ msg.message))
  else ""

/-- The filtering loop of src/main.py lines 356-359: requested ids kept only
when present in `EXECUTIVES`. -/
def filtered_executives (ids : List String) : List String :=
  ids.filter (fun executive_id => (registryFind executive_id).isSome)

/-- Value returned by `get_executive_responses` (src/main.py lines 387-391),
together with the new values of the two global state cells it mutates. -/
structure OrchestrationOutcome where
  responses : List (String × String)
  timestamp : String
  executives_consulted : Nat
  chat_history : List ChatEntry
  analytics_data : AnalyticsState

/-- `get_executive_responses` (src/main.py lines 340-395), the orchestration
entrypoint, in state-passing form.  `now` is `datetime.now().isoformat()`,
`today` the process-local date, `elapsed` the measured response time.  The
fan-out/join (`asyncio.gather(..., return_exceptions=True)`) delivers one
settled outcome per task: `.ok` with the coroutine value, or `.error` when the
coroutine raised — `get_executive_response` catches every collaborator
failure, so each outcome is `.ok` of its return value. -/
def get_executive_responses (request : ExecutiveRequest)
    (chat_history : List ChatEntry) (analytics : AnalyticsState)
    (gen : GenOracle) (now today : String) (elapsed : ℚ) :
    OrchestrationOutcome :=
  let context := get_context chat_history
  let tasks := filtered_executives request.executives
  let results : List (Except String String) :=
    tasks.map (fun executive_id =>
      Except.ok (get_executive_response gen executive_id request.message context))
  let responses :=
    (tasks.zip results).foldl
      (fun d p =>
        dictInsert d p.1
          (match p.2 with
           | .error _ => apology_unavailable
           | .ok s => s))
      []
  let chat_entry : ChatEntry :=
    { timestamp := now, message := request.message,
      executives := request.executives, responses := responses }
  { responses := responses,
    timestamp := now,
    executives_consulted := responses.length,
    chat_history := chat_history ++ [chat_entry],
    analytics_data := track_analytics analytics request.executives elapsed today }

/-- `GET /api/chat-history` (src/main.py lines 397-400): returns
`chat_history[-limit:]`, default limit 10. -/
def get_chat_history (chat_history : List ChatEntry) (limit : Int := 10) :
    List ChatEntry :=
  pyTail chat_history (-limit)

/-- Round-half-to-even on an integer scale, Python `round`. -/
def roundHalfEven (q : ℚ) : ℤ :=
  let n := ⌊q⌋
  let f := q - n
  if f < 1/2 then n
  else if 1/2 < f then n + 1
  else if n % 2 = 0 then n else n + 1

/-- Python `round(x, 2)`. -/
def pyRound2 (q : ℚ) : ℚ := (roundHalfEven (q * 100) : ℚ) / 100

/-- Python `max(items, key=lambda x: x[1])` over dict items: the first entry
(in insertion order) attaining the maximal value — a later entry replaces the
running best only when strictly greater. -/
def pyMaxBySnd : List (String × Nat) → Option (String × Nat)
  | [] => none
  | x :: xs => some (xs.foldl (fun best y => if best.2 < y.2 then y else best) x)

/-- Return value of `GET /api/analytics` (src/main.py lines 407-413). -/
structure AnalyticsSnapshot where
  total_conversations : Nat
  executive_usage : List (String × Nat)
  daily_stats : List (String × Nat)
  average_response_time : ℚ
  most_popular_executive : Option String

/-- `get_analytics` (src/main.py lines 402-413). -/
def get_analytics (s : AnalyticsState) : AnalyticsSnapshot :=
  let avg_response_time : ℚ :=
    if s.response_times ≠ [] then
      s.response_times.sum / (s.response_times.length : ℚ)
    else 0
  { total_conversations := s.total_conversations,
    executive_usage := s.executive_usage,
    daily_stats := s.daily_stats,
    average_response_time := pyRound2 avg_response_time,
    most_popular_executive :=
      if s.executive_usage ≠ [] then (pyMaxBySnd s.executive_usage).map Prod.fst
      else none }

/-- The `"Executives Consulted"` field value of the Slack payload
(src/main.py lines 244, 250-255). -/
def slack_exec_names (executives : List String) : String :=
  String.intercalate ", "
    (executives.filterMap (fun executive_id =>
      (registryFind executive_id).map Executive.name))

/-- The `"Discussion Topic"` field value of the Slack payload (src/main.py
line 258): `message[:200] + "..." if len(message) > 200 else message`. -/
def slack_topic_value (message : String) : String :=
  if message.length > 200 then String.mk (message.data.take 200) ++ "..."
  else message

/-- The context rendering stated by the spec (amended form): the input
messages of the selected turns, each prefixed by the sender label (always
`"User"` for turns created by this service) and joined with `" | "`,
oldest-first. -/
def contextSpec (msgs : List String) : String :=
  String.intercalate " | " (msgs.map (fun m => "User: " ++ m))

/-- A concrete generation oracle used by witnesses: the invocation for
`"steve"` fails, every other invocation succeeds with text that has
surrounding whitespace. -/
def genWitness : GenOracle := fun executive_id _ _ =>
  if executive_id = "steve" then .error "boom" else .ok " Great plan "

/-- A concrete chat-history entry used by witnesses. -/
def sampleEntry (m : String) : ChatEntry :=
  { timestamp := "t", message := m, executives := [], responses := [] }

/-- A concrete analytics state used by witnesses (note the usage tie between
"b" and "c"). -/
def sampleAnalytics : AnalyticsState :=
  { total_conversations := 3,
    executive_usage := [("a", 2), ("b", 5), ("c", 5)],
    daily_stats := [("2024-01-01", 3)],
    response_times := [1/2, 1/4] }

/-! ### Association-list lemmas -/

theorem dictGet_dictInsert_self {α : Type} (d : List (String × α)) (k : String)
    (v : α) : dictGet (dictInsert d k v) k = some v := by
  induction d with
  | nil => simp [dictInsert, dictGet]
  | cons p rest ih =>
    obtain ⟨k0, v0⟩ := p
    by_cases h : k0 = k <;> simp [dictInsert, dictGet, h, ih]

theorem dictGet_dictInsert_ne {α : Type} (d : List (String × α)) (k k' : String)
    (v : α) (hne : k' ≠ k) : dictGet (dictInsert d k v) k' = dictGet d k' := by
  have hne' : ¬(k = k') := fun h => hne h.symm
  induction d with
  | nil => simp [dictInsert, dictGet, hne']
  | cons p rest ih =>
    obtain ⟨k0, v0⟩ := p
    by_cases h : k0 = k
    · subst h
      simp [dictInsert, dictGet, hne']
    · by_cases h' : k0 = k' <;> simp [dictInsert, dictGet, h, h', hne, ih]

theorem dictKeys_nil {α : Type} : dictKeys ([] : List (String × α)) = [] := rfl

theorem dictKeys_cons {α : Type} (k0 : String) (v0 : α)
    (l : List (String × α)) : dictKeys ((k0, v0) :: l) = k0 :: dictKeys l := rfl

theorem dictKeys_dictInsert {α : Type} (d : List (String × α)) (k : String)
    (v : α) :
    dictKeys (dictInsert d k v) =
      if k ∈ dictKeys d then dictKeys d else dictKeys d ++ [k] := by
  induction d with
  | nil => simp [dictInsert, dictKeys]
  | cons p rest ih =>
    obtain ⟨k0, v0⟩ := p
    by_cases h : k0 = k
    · subst h
      simp [dictInsert, dictKeys]
    · have h' : ¬(k = k0) := fun hh => h hh.symm
      simp only [dictInsert, if_neg h, dictKeys_cons, ih, List.mem_cons]
      by_cases hm : k ∈ dictKeys rest <;> simp [hm, h']

theorem mem_dictKeys_dictInsert {α : Type} (d : List (String × α))
    (k k' : String) (v : α) :
    k' ∈ dictKeys (dictInsert d k v) ↔ k' = k ∨ k' ∈ dictKeys d := by
  rw [dictKeys_dictInsert]
  by_cases hm : k ∈ dictKeys d
  · simp only [if_pos hm]
    constructor
    · exact Or.inr
    · rintro (rfl | hh)
      exacts [hm, hh]
  · simp [if_neg hm, or_comm]

theorem nodup_dictKeys_dictInsert {α : Type} (d : List (String × α))
    (k : String) (v : α) (hd : (dictKeys d).Nodup) :
    (dictKeys (dictInsert d k v)).Nodup := by
  rw [dictKeys_dictInsert]
  by_cases hm : k ∈ dictKeys d
  · simpa [if_pos hm]
  · simp [if_neg hm, List.nodup_append, hd, hm]

theorem dictGet_dictIncr_self (d : List (String × Nat)) (k : String) :
    dictGet (dictIncr d k) k = some (dictGetD d k + 1) := by
  induction d with
  | nil => simp [dictIncr, dictGet, dictGetD]
  | cons p rest ih =>
    obtain ⟨k0, v0⟩ := p
    by_cases h : k0 = k <;> simp [dictIncr, dictGet, dictGetD, h, ih]

theorem dictGetD_dictIncr_self (d : List (String × Nat)) (k : String) :
    dictGetD (dictIncr d k) k = dictGetD d k + 1 := by
  simp [dictGetD, dictGet_dictIncr_self]

theorem dictGet_dictIncr_ne (d : List (String × Nat)) (k k' : String)
    (hne : k' ≠ k) : dictGet (dictIncr d k) k' = dictGet d k' := by
  have hne' : ¬(k = k') := fun h => hne h.symm
  induction d with
  | nil => simp [dictIncr, dictGet, hne']
  | cons p rest ih =>
    obtain ⟨k0, v0⟩ := p
    by_cases h : k0 = k
    · subst h
      simp [dictIncr, dictGet, hne']
    · by_cases h' : k0 = k' <;> simp [dictIncr, dictGet, h, h', hne, ih]

theorem dictGetD_dictIncr_ne (d : List (String × Nat)) (k k' : String)
    (hne : k' ≠ k) : dictGetD (dictIncr d k) k' = dictGetD d k' := by
  simp [dictGetD, dictGet_dictIncr_ne d k k' hne]

theorem dictGetD_foldl_dictIncr (ids : List String) (d : List (String × Nat))
    (k : String) :
    dictGetD (ids.foldl dictIncr d) k = dictGetD d k + ids.count k := by
  induction ids generalizing d with
  | nil => simp
  | cons i rest ih =>
    by_cases h : i = k
    · subst h
      simp only [List.foldl_cons, ih, dictGetD_dictIncr_self,
        List.count_cons_self]
      omega
    · have h' : k ≠ i := fun hh => h hh.symm
      simp only [List.foldl_cons, ih, dictGetD_dictIncr_ne d i k h',
        List.count_cons_of_ne h']

/-- Folding `dictInsert` with a value that is a function of the key, as the
orchestrator result loop does. -/
theorem dictGet_foldl_dictInsert (f : String → String) (ks : List String)
    (d : List (String × String)) (k : String) :
    dictGet (ks.foldl (fun d' k' => dictInsert d' k' (f k')) d) k =
      if k ∈ ks then some (f k) else dictGet d k := by
  induction ks generalizing d with
  | nil => simp
  | cons k0 rest ih =>
    by_cases hmem : k ∈ rest
    · simp [ih, hmem]
    · by_cases hk : k = k0
      · subst hk
        simp [ih, hmem, dictGet_dictInsert_self]
      · simp [ih, hmem, hk, dictGet_dictInsert_ne d k0 k _ hk]

theorem mem_dictKeys_foldl_dictInsert (f : String → String) (ks : List String)
    (d : List (String × String)) (k : String) :
    k ∈ dictKeys (ks.foldl (fun d' k' => dictInsert d' k' (f k')) d) ↔
      k ∈ ks ∨ k ∈ dictKeys d := by
  induction ks generalizing d with
  | nil => simp
  | cons k0 rest ih =>
    simp only [List.foldl_cons, ih, mem_dictKeys_dictInsert, List.mem_cons]
    tauto

theorem nodup_dictKeys_foldl_dictInsert (f : String → String) (ks : List String)
    (d : List (String × String)) (hd : (dictKeys d).Nodup) :
    (dictKeys (ks.foldl (fun d' k' => dictInsert d' k' (f k')) d)).Nodup := by
  induction ks generalizing d with
  | nil => simpa
  | cons k0 rest ih =>
    exact ih _ (nodup_dictKeys_dictInsert d k0 (f k0) hd)

/-! ### Orchestrator normal form -/

/-- The result mapping built by the orchestrator loop equals a fold of dict
assignments of the per-executive wrapper outputs over the filtered id list:
every gathered outcome is `.ok` of `get_executive_response`, so the
exception branch of the loop contributes nothing. -/
theorem foldl_zip_ok (f : String → String) (ks : List String)
    (d : List (String × String)) :
    ((ks.zip (ks.map (fun k => (Except.ok (f k) : Except String String)))).foldl
        (fun d' p =>
          dictInsert d' p.1
            (match p.2 with
             | .error _ => apology_unavailable
             | .ok s => s))
        d) =
      ks.foldl (fun d' k => dictInsert d' k (f k)) d := by
  induction ks generalizing d with
  | nil => rfl
  | cons k rest ih =>
    simp only [List.map_cons, List.zip_cons_cons, List.foldl_cons]
    exact ih _

theorem responses_eq_foldl (request : ExecutiveRequest)
    (chat_history : List ChatEntry) (analytics : AnalyticsState)
    (gen : GenOracle) (now today : String) (elapsed : ℚ) :
    (get_executive_responses request chat_history analytics gen now today
        elapsed).responses =
      (filtered_executives request.executives).foldl
        (fun d k =>
          dictInsert d k
            (get_executive_response gen k request.message
              (get_context chat_history)))
        [] := by
  unfold get_executive_responses
  exact foldl_zip_ok _ _ []

/-- The key at which a response is stored is a member of the mapping iff it is
a requested id present in the registry. -/
theorem mem_dictKeys_responses (request : ExecutiveRequest)
    (chat_history : List ChatEntry) (analytics : AnalyticsState)
    (gen : GenOracle) (now today : String) (elapsed : ℚ) (k : String) :
    k ∈ dictKeys (get_executive_responses request chat_history analytics gen
        now today elapsed).responses ↔
      k ∈ request.executives ∧ (registryFind k).isSome = true := by
  rw [responses_eq_foldl, mem_dictKeys_foldl_dictInsert]
  simp [filtered_executives, List.mem_filter, dictKeys]

/-- Looking up a response: for a filtered id it is the wrapper output, for any
other id it is absent. -/
theorem dictGet_responses (request : ExecutiveRequest)
    (chat_history : List ChatEntry) (analytics : AnalyticsState)
    (gen : GenOracle) (now today : String) (elapsed : ℚ) (k : String) :
    dictGet (get_executive_responses request chat_history analytics gen now
        today elapsed).responses k =
      if k ∈ filtered_executives request.executives then
        some (get_executive_response gen k request.message
          (get_context chat_history))
      else none := by
  rw [responses_eq_foldl, dictGet_foldl_dictInsert]
  split <;> simp [dictGet]

theorem nodup_dictKeys_responses (request : ExecutiveRequest)
    (chat_history : List ChatEntry) (analytics : AnalyticsState)
    (gen : GenOracle) (now today : String) (elapsed : ℚ) :
    (dictKeys (get_executive_responses request chat_history analytics gen now
        today elapsed).responses).Nodup := by
  rw [responses_eq_foldl]
  exact nodup_dictKeys_foldl_dictInsert _ _ [] (by simp [dictKeys])

/-! ### Lemmas about the analytics maximum and Python rounding -/

theorem pickMax_mem (x : String × Nat) (xs : List (String × Nat)) :
    xs.foldl (fun best y => if best.2 < y.2 then y else best) x ∈ x :: xs := by
  induction xs generalizing x with
  | nil => simp
  | cons y ys ih =>
    have h := ih (if x.2 < y.2 then y else x)
    simp only [List.foldl_cons]
    rcases List.mem_cons.mp h with h1 | h1
    · rw [h1]
      split <;> simp
    · simp [h1]

theorem pickMax_ge (x : String × Nat) (xs : List (String × Nat)) :
    ∀ z ∈ x :: xs,
      z.2 ≤ (xs.foldl (fun best y => if best.2 < y.2 then y else best) x).2 := by
  induction xs generalizing x with
  | nil =>
    intro z hz
    rcases List.mem_cons.mp hz with rfl | h1
    · exact le_refl _
    · simp at h1
  | cons y ys ih =>
    intro z hz
    simp only [List.foldl_cons]
    have hx : x.2 ≤ (if x.2 < y.2 then y else x).2 := by split <;> omega
    have hy : y.2 ≤ (if x.2 < y.2 then y else x).2 := by split <;> omega
    have hbest :=
      ih (if x.2 < y.2 then y else x) (if x.2 < y.2 then y else x)
        (List.mem_cons_self _ _)
    rcases List.mem_cons.mp hz with rfl | h1
    · exact le_trans hx hbest
    · rcases List.mem_cons.mp h1 with rfl | h2
      · exact le_trans hy hbest
      · exact ih _ z (List.mem_cons_of_mem _ h2)

theorem pyMaxBySnd_spec (l : List (String × Nat)) (hl : l ≠ []) :
    ∃ p, pyMaxBySnd l = some p ∧ p ∈ l ∧ ∀ q ∈ l, q.2 ≤ p.2 := by
  cases l with
  | nil => exact absurd rfl hl
  | cons x xs =>
    exact ⟨_, rfl, pickMax_mem x xs, pickMax_ge x xs⟩

/-- Round-half-to-even is within one half of its argument. -/
theorem abs_roundHalfEven_sub_le (q : ℚ) :
    |(roundHalfEven q : ℚ) - q| ≤ 1/2 := by
  have h1 : (⌊q⌋ : ℚ) ≤ q := Int.floor_le q
  have h2 : q < ⌊q⌋ + 1 := Int.lt_floor_add_one q
  unfold roundHalfEven
  simp only []
  split
  · rw [abs_le]
    constructor <;> linarith
  · split
    · rw [abs_le]
      push_cast
      constructor <;> linarith
    · split <;> (rw [abs_le]; push_cast; constructor <;> linarith)

/-- Python `round(x, 2)` is within 1/200 of its argument. -/
theorem abs_pyRound2_sub_le (q : ℚ) : |pyRound2 q - q| ≤ 1/200 := by
  have h := abs_roundHalfEven_sub_le (q * 100)
  unfold pyRound2
  have : (roundHalfEven (q * 100) : ℚ) / 100 - q =
      ((roundHalfEven (q * 100) : ℚ) - q * 100) / 100 := by ring
  rw [this, abs_div]
  rw [show |(100 : ℚ)| = 100 by norm_num]
  linarith [h]

/-! ### Claim theorems -/

/-- C1: for every orchestration request, the key set of the returned response
mapping equals exactly the set of requested persona ids present in the
registry (ids not found are excluded), the returned `executives_consulted`
equals the number of keys of that mapping, and a request with an empty
executive list yields an empty mapping and count 0. -/
theorem claim_C1_response_keys (request : ExecutiveRequest)
    (chat_history : List ChatEntry) (analytics : AnalyticsState)
    (gen : GenOracle) (now today : String) (elapsed : ℚ) :
    (∀ k, k ∈ dictKeys (get_executive_responses request chat_history analytics
        gen now today elapsed).responses ↔
          k ∈ request.executives ∧ (registryFind k).isSome = true) ∧
    (dictKeys (get_executive_responses request chat_history analytics gen now
        today elapsed).responses).Nodup ∧
    (get_executive_responses request chat_history analytics gen now today
        elapsed).executives_consulted =
      (dictKeys (get_executive_responses request chat_history analytics gen
        now today elapsed).responses).length ∧
    (request.executives = [] →
      (get_executive_responses request chat_history analytics gen now today
          elapsed).responses = [] ∧
      (get_executive_responses request chat_history analytics gen now today
          elapsed).executives_consulted = 0) := by
  refine ⟨mem_dictKeys_responses request chat_history analytics gen now today
      elapsed,
    nodup_dictKeys_responses request chat_history analytics gen now today
      elapsed, ?_, ?_⟩
  · simp only [dictKeys, List.length_map]
    rfl
  intro hempty
  have hresp : (get_executive_responses request chat_history analytics gen now
      today elapsed).responses = [] := by
    rw [responses_eq_foldl, hempty]
    rfl
  refine ⟨hresp, ?_⟩
  show (get_executive_responses request chat_history analytics gen now today
      elapsed).responses.length = 0
  rw [hresp]
  rfl

/-- C1 witness: the boundary case at a concrete empty request. -/
theorem claim_C1_witness :
    (get_executive_responses ⟨"hi", []⟩ [] analytics_data_init genWitness "T"
        "D" 0).responses = [] ∧
    (get_executive_responses ⟨"hi", []⟩ [] analytics_data_init genWitness "T"
        "D" 0).executives_consulted = 0 :=
  (claim_C1_response_keys ⟨"hi", []⟩ [] analytics_data_init genWitness "T" "D"
    0).2.2.2 rfl

/-- C7 counterexample: the claim says the appended turn's persona-id set is
the filtered set of valid registered ids, but the code stores the raw
requested list (src/main.py line 375: `"executives": request.executives`).
On the request `["garrett", "nobody"]` the filtered set is `["garrett"]`,
yet the stored turn's id list still contains `"nobody"`, which is not a
registered id and is absent from the result mapping. -/
theorem claim_C7_counterexample :
    (get_executive_responses ⟨"hi", ["garrett", "nobody"]⟩ []
        analytics_data_init genWitness "T" "D" 0).chat_history.map
        ChatEntry.executives = [["garrett", "nobody"]] ∧
    filtered_executives ["garrett", "nobody"] = ["garrett"] ∧
    "nobody" ∉ dictKeys (get_executive_responses ⟨"hi", ["garrett", "nobody"]⟩
        [] analytics_data_init genWitness "T" "D" 0).responses ∧
    registryFind "nobody" = none := by
  refine ⟨by decide, by decide, by decide, by decide⟩

/-- C7 (amended): every orchestration call appends exactly one new turn at the
end of the chat history, leaving prior entries unchanged; the appended turn
holds the input message, the raw requested id list as sent (unknown ids
included), and the result mapping, whose key set equals the filtered set of
valid registered ids. -/
theorem claim_C7_amended_append_turn (request : ExecutiveRequest)
    (chat_history : List ChatEntry) (analytics : AnalyticsState)
    (gen : GenOracle) (now today : String) (elapsed : ℚ) :
    (get_executive_responses request chat_history analytics gen now today
        elapsed).chat_history =
      chat_history ++
        [{ timestamp := now, message := request.message,
           executives := request.executives,
           responses := (get_executive_responses request chat_history
             analytics gen now today elapsed).responses }] ∧
    ∀ k, k ∈ dictKeys (get_executive_responses request chat_history analytics
        gen now today elapsed).responses ↔
      k ∈ filtered_executives request.executives := by
  refine ⟨rfl, fun k => ?_⟩
  rw [mem_dictKeys_responses]
  simp [filtered_executives, List.mem_filter]

/-- C7 witness: concrete call appending one turn that records the raw id
list, with the mapping keyed by the filtered ids. -/
theorem claim_C7_witness :
    (get_executive_responses ⟨"hi", ["garrett", "nobody"]⟩ []
        analytics_data_init genWitness "T" "D" 0).chat_history =
      [{ timestamp := "T", message := "hi",
         executives := ["garrett", "nobody"],
         responses := (get_executive_responses ⟨"hi", ["garrett", "nobody"]⟩
           [] analytics_data_init genWitness "T" "D" 0).responses }] ∧
    "garrett" ∈ dictKeys (get_executive_responses ⟨"hi", ["garrett",
        "nobody"]⟩ [] analytics_data_init genWitness "T" "D" 0).responses := by
  have h := claim_C7_amended_append_turn ⟨"hi", ["garrett", "nobody"]⟩ []
    analytics_data_init genWitness "T" "D" 0
  exact ⟨h.1, (h.2 "garrett").mpr (by decide)⟩

/-- C10: analytics usage counting is applied to the raw requested id list, not
the registry-filtered set: an unknown requested id gains a positive usage
count even though it is excluded from the result mapping and from the
generation fan-out. -/
theorem claim_C10_raw_usage (request : ExecutiveRequest)
    (chat_history : List ChatEntry) (analytics : AnalyticsState)
    (gen : GenOracle) (now today : String) (elapsed : ℚ)
    (executive_id : String) (hmem : executive_id ∈ request.executives)
    (hnone : registryFind executive_id = none) :
    dictGetD (get_executive_responses request chat_history analytics gen now
        today elapsed).analytics_data.executive_usage executive_id =
      dictGetD analytics.executive_usage executive_id +
        request.executives.count executive_id ∧
    0 < dictGetD (get_executive_responses request chat_history analytics gen
        now today elapsed).analytics_data.executive_usage executive_id ∧
    executive_id ∉ dictKeys (get_executive_responses request chat_history
        analytics gen now today elapsed).responses ∧
    executive_id ∉ filtered_executives request.executives := by
  have husage : (get_executive_responses request chat_history analytics gen
      now today elapsed).analytics_data.executive_usage =
      request.executives.foldl dictIncr analytics.executive_usage := rfl
  have hcount : 0 < request.executives.count executive_id :=
    List.count_pos_iff.mpr hmem
  refine ⟨by rw [husage, dictGetD_foldl_dictIncr], ?_, ?_, ?_⟩
  · rw [husage, dictGetD_foldl_dictIncr]
    omega
  · intro hk
    have := ((mem_dictKeys_responses request chat_history analytics gen now
      today elapsed executive_id).mp hk).2
    rw [hnone] at this
    simp at this
  · intro hk
    have := (List.mem_filter.mp hk).2
    rw [registryFind] at hnone
    simp [filtered_executives, registryFind, hnone] at this

/-- C10 witness: a concrete call whose request includes the unknown id
`"nobody"`. -/
theorem claim_C10_witness :
    dictGetD (get_executive_responses ⟨"hi", ["garrett", "nobody"]⟩ []
        analytics_data_init genWitness "T" "D"
        0).analytics_data.executive_usage "nobody" =
      dictGetD analytics_data_init.executive_usage "nobody" +
        (["garrett", "nobody"] : List String).count "nobody" ∧
    0 < dictGetD (get_executive_responses ⟨"hi", ["garrett", "nobody"]⟩ []
        analytics_data_init genWitness "T" "D"
        0).analytics_data.executive_usage "nobody" ∧
    "nobody" ∉ dictKeys (get_executive_responses ⟨"hi", ["garrett", "nobody"]⟩
        [] analytics_data_init genWitness "T" "D" 0).responses ∧
    "nobody" ∉ filtered_executives ["garrett", "nobody"] :=
  claim_C10_raw_usage ⟨"hi", ["garrett", "nobody"]⟩ [] analytics_data_init
    genWitness "T" "D" 0 "nobody" (by decide) (by decide)

/-! ### Wrapper case lemmas (shared by C2 and C9) -/

theorem get_executive_response_not_found (gen : GenOracle)
    (executive_id message context : String)
    (h : registryFind executive_id = none) :
    get_executive_response gen executive_id message context =
      executive_not_found executive_id := by
  unfold get_executive_response
  rw [h]

theorem get_executive_response_error (gen : GenOracle)
    (executive_id message context e : String)
    (hreg : (registryFind executive_id).isSome = true)
    (he : gen executive_id message context = .error e) :
    get_executive_response gen executive_id message context =
      apology_unable := by
  obtain ⟨ex, hex⟩ := Option.isSome_iff_exists.mp hreg
  unfold get_executive_response
  rw [hex, he]

theorem get_executive_response_ok (gen : GenOracle)
    (executive_id message context t : String)
    (hreg : (registryFind executive_id).isSome = true)
    (ht : gen executive_id message context = .ok t) :
    get_executive_response gen executive_id message context = pyStrip t := by
  obtain ⟨ex, hex⟩ := Option.isSome_iff_exists.mp hreg
  unfold get_executive_response
  rw [hex, ht]

theorem mem_dictInsert {α : Type} (d : List (String × α)) (k : String) (v : α)
    (p : String × α) (hp : p ∈ dictInsert d k v) : p ∈ d ∨ p = (k, v) := by
  induction d with
  | nil => simpa [dictInsert] using hp
  | cons q rest ih =>
    obtain ⟨k0, v0⟩ := q
    by_cases h : k0 = k
    · subst h
      rcases List.mem_cons.mp (by simpa [dictInsert] using hp) with h1 | h1
      · right
        rw [h1]
      · left
        exact List.mem_cons_of_mem _ h1
    · rcases List.mem_cons.mp (by simpa [dictInsert, h] using hp) with h1 | h1
      · left
        rw [h1]
        exact List.mem_cons_self _ _
      · rcases ih h1 with h2 | h2
        · left
          exact List.mem_cons_of_mem _ h2
        · right
          exact h2

theorem values_foldl_dictInsert (f : String → String) (ks : List String)
    (d : List (String × String)) (hd : ∀ p ∈ d, p.2 = f p.1) :
    ∀ p ∈ ks.foldl (fun d' k' => dictInsert d' k' (f k')) d, p.2 = f p.1 := by
  induction ks generalizing d with
  | nil => simpa using hd
  | cons k0 rest ih =>
    intro p hp
    refine ih (dictInsert d k0 (f k0)) ?_ p (by simpa using hp)
    intro q hq
    rcases mem_dictInsert d k0 (f k0) q hq with h1 | h1
    · exact hd q h1
    · rw [h1]

/-- C2: a failing generation invocation for one requested registered persona
is converted to the fixed apology fallback stored under that persona's key,
while a succeeding persona's key holds its actual (stripped) generated text;
the orchestration is a total function of its inputs, so no per-invocation
failure escapes to the caller. -/
theorem claim_C2_partial_failure (request : ExecutiveRequest)
    (chat_history : List ChatEntry) (analytics : AnalyticsState)
    (gen : GenOracle) (now today : String) (elapsed : ℚ)
    (executive_id : String) (hmem : executive_id ∈ request.executives)
    (hreg : (registryFind executive_id).isSome = true) :
    dictGet (get_executive_responses request chat_history analytics gen now
        today elapsed).responses executive_id =
      some (get_executive_response gen executive_id request.message
        (get_context chat_history)) ∧
    (∀ e, gen executive_id request.message (get_context chat_history) =
        .error e →
      dictGet (get_executive_responses request chat_history analytics gen now
          today elapsed).responses executive_id = some apology_unable) ∧
    (∀ t, gen executive_id request.message (get_context chat_history) =
        .ok t →
      dictGet (get_executive_responses request chat_history analytics gen now
          today elapsed).responses executive_id = some (pyStrip t)) := by
  have hf : executive_id ∈ filtered_executives request.executives :=
    List.mem_filter.mpr ⟨hmem, hreg⟩
  have hget := dictGet_responses request chat_history analytics gen now today
    elapsed executive_id
  rw [if_pos hf] at hget
  refine ⟨hget, fun e he => ?_, fun t ht => ?_⟩
  · rw [hget, get_executive_response_error gen executive_id request.message
      (get_context chat_history) e hreg he]
  · rw [hget, get_executive_response_ok gen executive_id request.message
      (get_context chat_history) t hreg ht]

/-- C2 witness: with the oracle failing for "steve" and succeeding for
"garrett", the mapping holds the fallback under "steve" and the stripped
generated text under "garrett". -/
theorem claim_C2_witness :
    dictGet (get_executive_responses ⟨"hi", ["garrett", "steve"]⟩ []
        analytics_data_init genWitness "T" "D" 0).responses "steve" =
      some apology_unable ∧
    dictGet (get_executive_responses ⟨"hi", ["garrett", "steve"]⟩ []
        analytics_data_init genWitness "T" "D" 0).responses "garrett" =
      some (pyStrip " Great plan ") := by
  have h1 := claim_C2_partial_failure ⟨"hi", ["garrett", "steve"]⟩ []
    analytics_data_init genWitness "T" "D" 0 "steve" (by decide) (by decide)
  have h2 := claim_C2_partial_failure ⟨"hi", ["garrett", "steve"]⟩ []
    analytics_data_init genWitness "T" "D" 0 "garrett" (by decide) (by decide)
  exact ⟨h1.2.1 "boom" rfl, h2.2.2 " Great plan " rfl⟩

/-- C9: the per-persona wrapper is total — it returns the fixed not-found
string for an unregistered id, the fixed apology when the collaborator call
fails, and the stripped text on success; consequently every value stored by
the orchestrator's result loop is the wrapper's return value, so the
exception branch of the loop never fires. -/
theorem claim_C9_wrapper_total (gen : GenOracle)
    (executive_id message context : String) (request : ExecutiveRequest)
    (chat_history : List ChatEntry) (analytics : AnalyticsState)
    (now today : String) (elapsed : ℚ) :
    (registryFind executive_id = none →
      get_executive_response gen executive_id message context =
        executive_not_found executive_id) ∧
    (∀ e, (registryFind executive_id).isSome = true →
      gen executive_id message context = .error e →
      get_executive_response gen executive_id message context =
        apology_unable) ∧
    (∀ t, (registryFind executive_id).isSome = true →
      gen executive_id message context = .ok t →
      get_executive_response gen executive_id message context = pyStrip t) ∧
    (∀ k v, (k, v) ∈ (get_executive_responses request chat_history analytics
        gen now today elapsed).responses →
      v = get_executive_response gen k request.message
        (get_context chat_history)) := by
  refine ⟨get_executive_response_not_found gen executive_id message context,
    fun e hreg he =>
      get_executive_response_error gen executive_id message context e hreg he,
    fun t hreg ht =>
      get_executive_response_ok gen executive_id message context t hreg ht,
    fun k v hkv => ?_⟩
  rw [responses_eq_foldl] at hkv
  exact values_foldl_dictInsert _ _ [] (by simp) (k, v) hkv

/-- C9 witness: the three wrapper cases at concrete inputs. -/
theorem claim_C9_witness :
    get_executive_response genWitness "nobody" "hi" "" =
      executive_not_found "nobody" ∧
    get_executive_response genWitness "steve" "hi" "" = apology_unable ∧
    get_executive_response genWitness "garrett" "hi" "" =
      pyStrip " Great plan " := by
  have h1 := claim_C9_wrapper_total genWitness "nobody" "hi" "" ⟨"hi", []⟩ []
    analytics_data_init "T" "D" 0
  have h2 := claim_C9_wrapper_total genWitness "steve" "hi" "" ⟨"hi", []⟩ []
    analytics_data_init "T" "D" 0
  have h3 := claim_C9_wrapper_total genWitness "garrett" "hi" "" ⟨"hi", []⟩ []
    analytics_data_init "T" "D" 0
  exact ⟨h1.1 (by decide), h2.2.1 "boom" (by decide) rfl,
    h3.2.2.1 " Great plan " (by decide) rfl⟩

theorem pyRound2_zero : pyRound2 0 = 0 := by
  unfold pyRound2 roundHalfEven
  norm_num

/-- C3 counterexample: the claim says the derived context joins exactly the
input message texts into a delimited string; a delimited join of the single
message list `["a"]` is `"a"` for every delimiter, but the code renders each
turn as `"User: " ++ message` (src/main.py line 350), so a one-turn history
with message `"a"` yields `"User: a"`, not `"a"`. -/
theorem claim_C3_counterexample :
    String.intercalate " | " ["a"] = "a" ∧
    (sampleEntry "a").message = "a" ∧
    get_context [sampleEntry "a"] ≠ "a" ∧
    get_context [sampleEntry "a"] = "User: a" := by
  refine ⟨by decide, by decide, by decide, by decide⟩

/-- C3 (amended): context derivation takes the last 3 turns (fewer when the
history is shorter, empty text for empty history) and joins, oldest-first
with separator `" | "`, each turn's input message prefixed by the sender
label (always `"User"` for turns created by this service) and `": "`; for
history messages "a","b","c","d" the context is
"User: b | User: c | User: d", and for a one-turn history with message "a"
it is "User: a". -/
theorem claim_C3_amended_context (chat_history : List ChatEntry)
    (t1 t2 t3 t4 : ChatEntry) :
    get_context chat_history =
      contextSpec ((pyTail chat_history (-3)).map ChatEntry.message) ∧
    get_context [] = "" ∧
    (t2.message = "b" → t3.message = "c" → t4.message = "d" →
      get_context [t1, t2, t3, t4] = "User: b | User: c | User: d") ∧
    (t1.message = "a" → get_context [t1] = "User: a") := by
  refine ⟨?_, rfl, ?_, ?_⟩
  · cases chat_history with
    | nil => rfl
    | cons e rest =>
      unfold get_context contextSpec
      rw [if_pos (by simp), List.map_map]
      rfl
  · intro h2 h3 h4
    have base : get_context [t1, t2, t3, t4] =
        String.intercalate " | " ["User: " ++ t2.message,
          "User: " ++ t3.message, "User: " ++ t4.message] := rfl
    rw [base, h2, h3, h4]
    decide
  · intro h1
    have base : get_context [t1] =
        String.intercalate " | " ["User: " ++ t1.message] := rfl
    rw [base, h1]
    decide

/-- C3 witness: the two concrete context shapes from the spec example. -/
theorem claim_C3_witness :
    get_context [sampleEntry "a", sampleEntry "b", sampleEntry "c",
      sampleEntry "d"] = "User: b | User: c | User: d" ∧
    get_context [sampleEntry "a"] = "User: a" := by
  have h := claim_C3_amended_context [] (sampleEntry "a") (sampleEntry "b")
    (sampleEntry "c") (sampleEntry "d")
  exact ⟨h.2.2.1 rfl rfl rfl, h.2.2.2 rfl⟩

/-- C4: each analytics record call increments the total counter by exactly 1
regardless of how many ids are passed, increments each persona counter once
per occurrence of that id in the list, increments the bucket of the current
process-local date by 1 and appends the elapsed-time sample; two calls with
["x","y"] raise the total by 2 and the counts of "x" and "y" by 2 each. -/
theorem claim_C4_track_analytics (s : AnalyticsState) (ids : List String)
    (t t1 t2 : ℚ) (today d1 d2 : String) :
    (track_analytics s ids t today).total_conversations =
      s.total_conversations + 1 ∧
    (∀ k, dictGetD (track_analytics s ids t today).executive_usage k =
      dictGetD s.executive_usage k + ids.count k) ∧
    dictGetD (track_analytics s ids t today).daily_stats today =
      dictGetD s.daily_stats today + 1 ∧
    (track_analytics s ids t today).response_times =
      s.response_times ++ [t] ∧
    (track_analytics (track_analytics s ["x", "y"] t1 d1) ["x", "y"] t2
        d2).total_conversations = s.total_conversations + 2 ∧
    dictGetD (track_analytics (track_analytics s ["x", "y"] t1 d1) ["x", "y"]
        t2 d2).executive_usage "x" = dictGetD s.executive_usage "x" + 2 ∧
    dictGetD (track_analytics (track_analytics s ["x", "y"] t1 d1) ["x", "y"]
        t2 d2).executive_usage "y" = dictGetD s.executive_usage "y" + 2 := by
  refine ⟨rfl, fun k => dictGetD_foldl_dictIncr ids s.executive_usage k,
    dictGetD_dictIncr_self s.daily_stats today, rfl, rfl, ?_, ?_⟩
  · rw [show (track_analytics (track_analytics s ["x", "y"] t1 d1) ["x", "y"]
        t2 d2).executive_usage =
      (["x", "y"] : List String).foldl dictIncr
        ((["x", "y"] : List String).foldl dictIncr s.executive_usage)
      from rfl]
    rw [dictGetD_foldl_dictIncr, dictGetD_foldl_dictIncr]
    have hc : (["x", "y"] : List String).count "x" = 1 := by decide
    simp only [hc]
  · rw [show (track_analytics (track_analytics s ["x", "y"] t1 d1) ["x", "y"]
        t2 d2).executive_usage =
      (["x", "y"] : List String).foldl dictIncr
        ((["x", "y"] : List String).foldl dictIncr s.executive_usage)
      from rfl]
    rw [dictGetD_foldl_dictIncr, dictGetD_foldl_dictIncr]
    have hc : (["x", "y"] : List String).count "y" = 1 := by decide
    simp only [hc]

/-- C5: the analytics snapshot returns the total call count, the usage and
day-bucket mappings verbatim, the arithmetic mean of the latency samples
rounded to two decimal places (an integer multiple of 1/100 within 1/200 of
the true mean; 0 when no samples exist), and a most-popular persona that is
an entry of the usage mapping attaining the maximal count — computed by a
pure function of the insertion-ordered mapping (the first entry attaining
the maximum), hence a deterministic tie-break. -/
theorem claim_C5_snapshot (s : AnalyticsState) :
    (get_analytics s).total_conversations = s.total_conversations ∧
    (get_analytics s).executive_usage = s.executive_usage ∧
    (get_analytics s).daily_stats = s.daily_stats ∧
    (get_analytics s).average_response_time =
      pyRound2 (if s.response_times ≠ [] then
        s.response_times.sum / (s.response_times.length : ℚ) else 0) ∧
    (∃ z : ℤ, (get_analytics s).average_response_time = (z : ℚ) / 100) ∧
    |(get_analytics s).average_response_time -
      (if s.response_times ≠ [] then
        s.response_times.sum / (s.response_times.length : ℚ) else 0)| ≤
      1/200 ∧
    (s.response_times = [] →
      (get_analytics s).average_response_time = 0) ∧
    (s.executive_usage ≠ [] → ∃ p, p ∈ s.executive_usage ∧
      (get_analytics s).most_popular_executive = some p.1 ∧
      ∀ q ∈ s.executive_usage, q.2 ≤ p.2) ∧
    (s.executive_usage = [] →
      (get_analytics s).most_popular_executive = none) := by
  refine ⟨rfl, rfl, rfl, rfl, ⟨roundHalfEven ((if s.response_times ≠ [] then
      s.response_times.sum / (s.response_times.length : ℚ) else 0) * 100),
      rfl⟩,
    abs_pyRound2_sub_le _, ?_, ?_, ?_⟩
  · intro h
    have hz : (if s.response_times ≠ [] then
        s.response_times.sum / (s.response_times.length : ℚ) else 0) = 0 :=
      if_neg (fun hh => hh h)
    calc (get_analytics s).average_response_time
        = pyRound2 (if s.response_times ≠ [] then
            s.response_times.sum / (s.response_times.length : ℚ) else 0) :=
          rfl
      _ = pyRound2 0 := by rw [hz]
      _ = 0 := pyRound2_zero
  · intro h
    obtain ⟨p, hp1, hp2, hp3⟩ := pyMaxBySnd_spec s.executive_usage h
    refine ⟨p, hp2, ?_, hp3⟩
    show (if s.executive_usage ≠ [] then
      (pyMaxBySnd s.executive_usage).map Prod.fst else none) = some p.1
    rw [if_pos h, hp1]
    rfl
  · intro h
    show (if s.executive_usage ≠ [] then
      (pyMaxBySnd s.executive_usage).map Prod.fst else none) = none
    exact if_neg (fun hh => hh h)

/-- C5 witness: the most-popular persona on a concrete tied state (first
maximal entry "b"), and the zero mean on the initial state. -/
theorem claim_C5_witness :
    (∃ p, p ∈ sampleAnalytics.executive_usage ∧
      (get_analytics sampleAnalytics).most_popular_executive = some p.1 ∧
      ∀ q ∈ sampleAnalytics.executive_usage, q.2 ≤ p.2) ∧
    (get_analytics analytics_data_init).average_response_time = 0 := by
  obtain ⟨-, -, -, -, -, -, -, hpop, -⟩ := claim_C5_snapshot sampleAnalytics
  obtain ⟨-, -, -, -, -, -, hzero, -, -⟩ :=
    claim_C5_snapshot analytics_data_init
  exact ⟨hpop (by decide), hzero rfl⟩

/-- C6: in the notification payload, a message longer than 200 characters is
rendered as its first 200 characters followed by the ellipsis marker (total
203 characters), and a message of length at most 200 is rendered
unmodified. -/
theorem claim_C6_truncation (message : String) :
    (200 < message.length →
      slack_topic_value message = String.mk (message.data.take 200) ++ "..." ∧
      (slack_topic_value message).length = 203) ∧
    (message.length ≤ 200 → slack_topic_value message = message) := by
  constructor
  · intro h
    have he : slack_topic_value message =
        String.mk (message.data.take 200) ++ "..." := by
      unfold slack_topic_value
      rw [if_pos h]
    refine ⟨he, ?_⟩
    rw [he, String.length_append]
    have hmk : (String.mk (message.data.take 200)).length =
        (message.data.take 200).length := rfl
    have hd : message.data.length = message.length := rfl
    have h3 : ("..." : String).length = 3 := by decide
    rw [hmk, List.length_take, hd, h3]
    omega
  · intro h
    unfold slack_topic_value
    rw [if_neg (by omega)]

set_option maxRecDepth 10000 in
/-- C6 witness: a 250-character message is truncated to its first 200
characters plus the marker, a 50-character message is unchanged. -/
theorem claim_C6_witness :
    200 < (String.mk (List.replicate 250 'a')).length ∧
    slack_topic_value (String.mk (List.replicate 250 'a')) =
      String.mk ((List.replicate 250 'a').take 200) ++ "..." ∧
    slack_topic_value (String.mk (List.replicate 50 'b')) =
      String.mk (List.replicate 50 'b') := by
  refine ⟨by decide, ?_, ?_⟩
  · exact ((claim_C6_truncation (String.mk (List.replicate 250 'a'))).1
      (by decide)).1
  · exact (claim_C6_truncation (String.mk (List.replicate 50 'b'))).2
      (by decide)

/-- C8 counterexample: the claim quantifies over every integer limit, but for
`limit = 0` the code evaluates `chat_history[-0:]`, i.e. the whole history,
whereas the most recent 0 turns would be the empty list (negative limits
similarly drop turns from the front instead). -/
theorem claim_C8_counterexample :
    get_chat_history [sampleEntry "a"] 0 = [sampleEntry "a"] ∧
    get_chat_history [sampleEntry "a"] 0 ≠ [] := by
  refine ⟨by decide, by decide⟩

/-- C8 (amended): for every limit ≥ 1 (the endpoint default is 10), history
retrieval returns exactly the most recent `limit` stored turns — the suffix
of length `min limit length` — in stored order, most recent last. -/
theorem claim_C8_amended_history (chat_history : List ChatEntry) (limit : Int)
    (hpos : 1 ≤ limit) :
    get_chat_history chat_history limit =
      chat_history.drop (chat_history.length - limit.toNat) ∧
    (get_chat_history chat_history limit).length =
      min limit.toNat chat_history.length ∧
    chat_history.take (chat_history.length - limit.toNat) ++
      get_chat_history chat_history limit = chat_history := by
  have hneg : (-limit) < 0 := by omega
  have e1 : get_chat_history chat_history limit =
      chat_history.drop (chat_history.length - limit.toNat) := by
    unfold get_chat_history pyTail
    rw [if_pos hneg]
    congr 1
    omega
  refine ⟨e1, ?_, ?_⟩
  · rw [e1, List.length_drop]
    omega
  · rw [e1]
    exact List.take_append_drop _ _

/-- C8 witness: limit 2 on a three-turn history returns the last two turns in
order. -/
theorem claim_C8_witness :
    get_chat_history [sampleEntry "a", sampleEntry "b", sampleEntry "c"] 2 =
      [sampleEntry "b", sampleEntry "c"] := by
  have h := (claim_C8_amended_history
    [sampleEntry "a", sampleEntry "b", sampleEntry "c"] 2 (by norm_num)).1
  rw [h]
  decide
